import Mathlib

/-!
# Verification of the Paymint web-commerce automation engine

Shallow embedding of the content-script engine of the Paymint browser
extension: platform detection, checkout extraction (price parsing,
line-item extraction), pay-button injection, the gift-card redemption
verification step, the mutation-observer debounce scheduler, and the
page-session teardown.

Sources embedded:
* `src/extension/src/content/platforms/dominos.ts`  (`DominosPlatform`)
* `src/unnamed/part_010`                            (`AmazonPlatform`)
* `src/extension/src/content/platforms/netflix.ts`  (`NetflixPlatform`)
* `src/unnamed/part_008`                            (platform registry)
* `src/extension/src/content/content-script.ts`     (`PaymintContentScript`)

Modelling conventions:
* JS numbers produced by `parseFloat` on the decimal numerals these
  parsers capture are modelled exactly as integer hundredths (`ℕ` cents):
  every numeral any of the patterns can capture has at most two fractional
  digits, so `amount` in the source corresponds to `amountCents / 100`
  here, and every comparison the code performs (`isNaN`, `> 0`, order)
  is preserved by the scaling.
* The DOM is modelled as an uninterpreted query surface (`Doc`, `El`):
  each CSS selector either resolves to an element (with a text content,
  a disabled flag, and its own sub-queries) or does not.  The engine never
  inspects selectors beyond passing them to `querySelector` /
  `querySelectorAll`, so this is exactly the interface the code consumes.
* The regexes in the price parsers are hand-compiled to scanners over
  `List Char`.  For every pattern in the source, greedy matching without
  intra-position backtracking coincides with the regex semantics, because
  in each pattern the character classes of adjacent sub-expressions are
  disjoint (digits / dot / comma / whitespace / letters / currency
  symbols), so giving back characters can never rescue a failed
  continuation; the scanner tries start positions left to right exactly
  as `String.prototype.match` does.
-/

namespace Paymint

/-! ## String primitives (JS semantics) -/

/-- The JS whitespace class as it occurs in checkout text. -/
def isWs (c : Char) : Bool := c == ' ' || c == '\t' || c == '\n' || c == '\r'

/-- `replace(/\s+/g, ' ')`: collapse every whitespace run into one space.
The flag records whether the previous character was whitespace. -/
def squeezeWs : Bool → List Char → List Char
  | _, [] => []
  | prevWs, c :: cs =>
    if isWs c then
      if prevWs then squeezeWs true cs else ' ' :: squeezeWs true cs
    else c :: squeezeWs false cs

/-- `String.prototype.trim`. -/
def trimWs (l : List Char) : List Char :=
  ((l.dropWhile isWs).reverse.dropWhile isWs).reverse

/-- `priceText.replace(/\s+/g, ' ').trim()` — the `cleanText` of all three parsers. -/
def normText (s : String) : List Char := trimWs (squeezeWs false s.data)

/-- Whether `sub` occurs as a contiguous substring: `String.prototype.includes`. -/
def containsSeq (sub : List Char) : List Char → Bool
  | [] => sub.isEmpty
  | c :: rest => sub.isPrefixOf (c :: rest) || containsSeq sub rest

/-- JS `s.includes(sub)`. -/
def strIncludes (s sub : String) : Bool := containsSeq sub.data s.data

/-! ## Numeral fragments shared by the regex scanners -/

def digVal (c : Char) : ℕ := c.toNat - '0'.toNat

/-- Value of a digit string (`parseFloat` on the integer part). -/
def digitsVal (l : List Char) : ℕ := l.foldl (fun a c => a * 10 + digVal c) 0

/-- Greedy `\d+` (split into the digit prefix and the rest). -/
def takeDigits (l : List Char) : List Char × List Char :=
  (l.takeWhile Char.isDigit, l.dropWhile Char.isDigit)

/-- The optional two-digit fraction `(?:\.\d\d)?`: if the text starts with a dot
followed by two digits, consume those three characters and return the
fraction's value in cents, else consume nothing. -/
def takeFrac : List Char → ℕ × List Char
  | '.' :: a :: b :: rest =>
    if a.isDigit && b.isDigit then
      (10 * digVal a + digVal b, rest)
    else (0, '.' :: a :: b :: rest)
  | l => (0, l)

/-- `(?:,\d\d\d)*`: greedily consume comma-separated three-digit groups and
return their digits with the commas removed (as `replace(/,/g, '')` does). -/
def takeCommaGroups : List Char → List Char × List Char
  | ',' :: a :: b :: c :: rest =>
    if a.isDigit && b.isDigit && c.isDigit then
      let p := takeCommaGroups rest
      (a :: b :: c :: p.1, p.2)
    else ([], ',' :: a :: b :: c :: rest)
  | l => ([], l)

/-- Amount in cents denoted by an integer digit string plus a two-digit
fraction value. -/
def centsOf (intDigits : List Char) (frac : ℕ) : ℕ := digitsVal intDigits * 100 + frac

/-! ## Domino's price parser (`DominosPlatform.parseDominosPrice`) -/

def isDominosSym (c : Char) : Bool := c == '$' || c == '£' || c == '€'

/-- Domino's pattern 1, leftmost match of `([£$€])(\d+(?:\.\d\d)?)`. -/
def dScanSym : List Char → Option (Char × ℕ)
  | [] => none
  | c :: rest =>
    if isDominosSym c then
      let p := takeDigits rest
      if p.1.isEmpty then dScanSym rest
      else some (c, centsOf p.1 (takeFrac p.2).1)
    else dScanSym rest

/-- Domino's pattern 2, leftmost match of `(\d+(?:\.\d\d)?)\s*([A-Z][A-Z][A-Z])`. -/
def dScanAmtCode : List Char → Option (ℕ × String)
  | [] => none
  | c :: rest =>
    if c.isDigit then
      let p := takeDigits (c :: rest)
      let f := takeFrac p.2
      match f.2.dropWhile isWs with
      | a :: b :: c3 :: _ =>
        if a.isUpper && b.isUpper && c3.isUpper then
          some (centsOf p.1 f.1, String.mk [a, b, c3])
        else dScanAmtCode rest
      | _ => dScanAmtCode rest
    else dScanAmtCode rest

/-- Case-insensitive literal-prefix test, returning the rest on success. -/
def ciPrefix : List Char → List Char → Option (List Char)
  | [], l => some l
  | _ :: _, [] => none
  | p :: ps, c :: cs => if c.toLower == p then ciPrefix ps cs else none

/-- Domino's pattern 3, leftmost match of `total:?\s*([£$€])(\d+(?:\.\d\d)?)` with
the `i` flag. -/
def dScanTotal : List Char → Option (Char × ℕ)
  | [] => none
  | c :: rest =>
    match ciPrefix ['t', 'o', 't', 'a', 'l'] (c :: rest) with
    | some r1 =>
      let r2 := match r1 with
        | ':' :: t => t
        | _ => r1
      match r2.dropWhile isWs with
      | s :: r4 =>
        if isDominosSym s then
          let p := takeDigits r4
          if p.1.isEmpty then dScanTotal rest
          else some (s, centsOf p.1 (takeFrac p.2).1)
        else dScanTotal rest
      | [] => dScanTotal rest
    | none => dScanTotal rest

/-- Domino's pattern 4, leftmost match of
`([£$€])(\d\d?\d?(?:,\d\d\d)*(?:\.\d\d)?)`: a symbol, one to three digits,
comma groups, optional fraction. -/
def dScanSymComma : List Char → Option (Char × ℕ)
  | [] => none
  | c :: rest =>
    if isDominosSym c then
      let ds := (rest.takeWhile Char.isDigit).take 3
      if ds.isEmpty then dScanSymComma rest
      else
        let r1 := rest.drop ds.length
        let g := takeCommaGroups r1
        some (c, centsOf (ds ++ g.1) (takeFrac g.2).1)
    else dScanSymComma rest

/-- `DominosPlatform.getCurrencyFromSymbol`: `$`→USD, `£`→GBP, `€`→EUR,
anything else defaults to USD. -/
def dominosCurrencyFromSymbol (c : Char) : String :=
  if c == '$' then "USD" else if c == '£' then "GBP" else if c == '€' then "EUR" else "USD"

/-- `DominosPlatform.parseDominosPrice`.  The four patterns are tried in source
order on the whitespace-normalised text; for the symbol patterns the branch
`/[£$€]/.test(match[1])` always holds and the currency is mapped from the
symbol, for pattern 2 the branch `/[A-Z]{3}/.test(match[2])` always holds and
the captured code is the currency; `parseFloat` on a captured numeral is never
`NaN`, so the `isNaN` guard never fires. -/
def parseDominosPrice (s : String) : Option (ℕ × String) :=
  if s.isEmpty then none
  else
    let t := normText s
    match dScanSym t with
    | some pr => some (pr.2, dominosCurrencyFromSymbol pr.1)
    | none =>
      match dScanAmtCode t with
      | some pr => some pr
      | none =>
        match dScanTotal t with
        | some pr => some (pr.2, dominosCurrencyFromSymbol pr.1)
        | none =>
          match dScanSymComma t with
          | some pr => some (pr.2, dominosCurrencyFromSymbol pr.1)
          | none => none

/-! ## Amazon price parser (`AmazonPlatform.parseAmazonPrice`) -/

/-- Leftmost match of `SYM(\d+(?:,\d\d\d)*(?:\.\d\d)?)` for a fixed currency
symbol `sym` (Amazon patterns 1, 2, 3 and 6). -/
def aScanSym (sym : Char) : List Char → Option ℕ
  | [] => none
  | c :: rest =>
    if c == sym then
      let p := takeDigits rest
      if p.1.isEmpty then aScanSym sym rest
      else
        let g := takeCommaGroups p.2
        some (centsOf (p.1 ++ g.1) (takeFrac g.2).1)
    else aScanSym sym rest

/-- Leftmost match of `(\d+(?:,\d\d\d)*(?:\.\d\d)?)\s*SUFFIX` for a fixed
literal suffix (Amazon patterns 4 and 5). -/
def aScanNumSuffix (suffix : List Char) : List Char → Option ℕ
  | [] => none
  | c :: rest =>
    if c.isDigit then
      let p := takeDigits (c :: rest)
      let g := takeCommaGroups p.2
      let f := takeFrac g.2
      if suffix.isPrefixOf (f.2.dropWhile isWs) then
        some (centsOf (p.1 ++ g.1) f.1)
      else aScanNumSuffix suffix rest
    else aScanNumSuffix suffix rest

/-- `AmazonPlatform.parseAmazonPrice`.  Patterns in source order; the currency
is then determined from the whole cleaned text (`£`→GBP, `€`→EUR, `₹`→INR,
otherwise USD — the explicit `includes('USD')` branch also yields the USD
default).  `parseFloat` on a captured numeral is never `NaN`. -/
def parseAmazonPrice (s : String) : Option (ℕ × String) :=
  if s.isEmpty then none
  else
    let t := normText s
    let amt :=
      match aScanSym '$' t with
      | some a => some a
      | none =>
        match aScanSym '£' t with
        | some a => some a
        | none =>
          match aScanSym '€' t with
          | some a => some a
          | none =>
            match aScanNumSuffix ['U', 'S', 'D'] t with
            | some a => some a
            | none =>
              match aScanNumSuffix ['$'] t with
              | some a => some a
              | none => aScanSym '₹' t
    match amt with
    | none => none
    | some a =>
      let currency :=
        if t.contains '£' then "GBP"
        else if t.contains '€' then "EUR"
        else if t.contains '₹' then "INR"
        else "USD"
      some (a, currency)

/-! ## Netflix price parser (`NetflixPlatform.parseNetflixPrice`) -/

def isNetflixSym (c : Char) : Bool := c == '$' || c == '£' || c == '€' || c == '₹'

/-- Netflix patterns 1 and 3, leftmost match of `([£$€₹])(\d+(?:\.\d\d)?)`.
Pattern 1's trailing `\s*(?:\/|\s*per\s*|\s*)(?:month|mo|месяц)?` always
matches (its middle alternative accepts the empty string and the final group
is optional), captures nothing, and so neither restricts where the pattern
matches nor affects the captured groups; pattern 3 is the same expression
without the tail. -/
def nScanSym : List Char → Option (Char × ℕ)
  | [] => none
  | c :: rest =>
    if isNetflixSym c then
      let p := takeDigits rest
      if p.1.isEmpty then nScanSym rest
      else some (c, centsOf p.1 (takeFrac p.2).1)
    else nScanSym rest

def isAsciiLetter (c : Char) : Bool := c.isUpper || c.isLower

/-- Netflix pattern 2, leftmost match of `(\d+(?:\.\d\d)?)\s*([A-Z][A-Z][A-Z])`
under the `i` flag (so the letters may be of either case; the capture keeps
the original characters).  Its always-satisfiable tail is dropped as for
`nScanSym`.  Pattern 4 is the case-sensitive `dScanAmtCode`. -/
def nScanAmtCodeCI : List Char → Option (ℕ × String)
  | [] => none
  | c :: rest =>
    if c.isDigit then
      let p := takeDigits (c :: rest)
      let f := takeFrac p.2
      match f.2.dropWhile isWs with
      | a :: b :: c3 :: _ =>
        if isAsciiLetter a && isAsciiLetter b && isAsciiLetter c3 then
          some (centsOf p.1 f.1, String.mk [a, b, c3])
        else nScanAmtCodeCI rest
      | _ => nScanAmtCodeCI rest
    else nScanAmtCodeCI rest

/-- `NetflixPlatform.getCurrencyFromSymbol` (includes `₹`→INR). -/
def netflixCurrencyFromSymbol (c : Char) : String :=
  if c == '$' then "USD"
  else if c == '£' then "GBP"
  else if c == '€' then "EUR"
  else if c == '₹' then "INR"
  else "USD"

/-- `NetflixPlatform.parseNetflixPrice`.  Pattern 1 wins via the symbol branch;
if pattern 2 matches but its captured code fails the case-sensitive
`/[A-Z]{3}/.test(match[2])` check the loop continues with pattern 3 (the same
expression as pattern 1, hence it fails whenever pattern 1 did) and then
pattern 4, the case-sensitive variant of pattern 2. -/
def parseNetflixPrice (s : String) : Option (ℕ × String) :=
  if s.isEmpty then none
  else
    let t := normText s
    match nScanSym t with
    | some pr => some (pr.2, netflixCurrencyFromSymbol pr.1)
    | none =>
      match nScanAmtCodeCI t with
      | some pr =>
        if pr.2.data.all Char.isUpper then some pr
        else
          match dScanAmtCode t with
          | some pr2 => some pr2
          | none => none
      | none =>
        match dScanAmtCode t with
        | some pr2 => some pr2
        | none => none


/-! ## The DOM as the engine observes it

The engine consumes the page exclusively through `document.querySelector`,
`document.querySelectorAll`, element text content, the `disabled` attribute,
and per-element sub-queries; `Doc` and `El` expose exactly that surface. -/

/-- An element: its text content, whether it has the `disabled` attribute, and
its own sub-queries (`el.querySelector(sel)?.textContent` and the text contents
of `el.querySelectorAll(sel)`). -/
structure El where
  textContent : String
  disabled : Bool
  subText : String → Option String
  subAllTexts : String → List String

/-- The page: `document.querySelector` and `document.querySelectorAll`. -/
structure Doc where
  query : String → Option El
  queryAll : String → List El

/-- The `findElement` utility shared by the three platform classes: the first
selector in the chain that resolves wins. -/
def findElement (d : Doc) : List String → Option El
  | [] => none
  | s :: rest =>
    match d.query s with
    | some el => some el
    | none => findElement d rest

/-- JS `.trim()` on the engine's strings. -/
def jsTrim (s : String) : String := String.mk (trimWs s.data)

/-- JS `.toLowerCase()` on the engine's strings. -/
def strToLower (s : String) : String := String.mk (s.data.map Char.toLower)

/-- A line item as the platform classes construct it (`price` and `type` are
absent from some of the object literals in the source). -/
structure CheckoutItem where
  name : String
  platform : String
  priceCents : Option ℕ := none
  itemType : Option String := none
  deriving DecidableEq, Repr

/-- The `CheckoutInfo` snapshot of `src/unnamed/part_009`. -/
structure CheckoutInfo where
  platform : String
  totalAmountCents : ℕ
  currency : String
  items : List CheckoutItem
  checkoutUrl : String
  timestamp : ℕ
  deriving DecidableEq, Repr

/-! ## Domino's selector chains and extraction (`DominosPlatform`) -/

def dominosSupportedDomains : List String :=
  ["dominos.com", "dominos.co.uk", "dominos.de", "dominos.com.au",
   "dominos.ca", "dominos.co.nz", "dominos.ie", "dominos.fr"]

def dominosTotalPriceSelectors : List String :=
  ["[data-quid=\"order-summary-total\"]", ".order-total .price", "#total-price",
   ".checkout-total .amount", ".order-summary-total-row .total-amount"]

def dominosCartItemSelectors : List String :=
  [".cart-item", "[data-quid=\"cart-item\"]", ".order-item", ".pizza-item"]

def dominosItemNameSelectors : List String :=
  [".item-name", "[data-quid=\"item-name\"]", ".product-name"]

def dominosItemPriceSelectors : List String :=
  [".item-price", "[data-quid=\"item-price\"]", ".product-price"]

def dominosPaymentSectionSelectors : List String :=
  ["[data-quid=\"payment-section\"]", ".payment-methods", "#payment-container",
   ".checkout-payment"]

def dominosRelevantPaths : List String :=
  ["/checkout", "/cart", "/order-summary", "/payment", "/review-order"]

/-- First loop of `DominosPlatform.extractTotalPrice`: walk the total-price
selector chain, parse the text of each element that resolves, first parse
success wins. -/
def dominosTryTotals (d : Doc) : List String → Option (ℕ × String)
  | [] => none
  | s :: rest =>
    match d.query s with
    | some el =>
      match parseDominosPrice el.textContent with
      | some pr => some pr
      | none => dominosTryTotals d rest
    | none => dominosTryTotals d rest

/-- The regex test `/[\$£€]\d+\.\d\d/` applied to the raw element text in the
fallback loop of `DominosPlatform.extractTotalPrice`. -/
def hasSymPriceShape : List Char → Bool
  | [] => false
  | c :: rest =>
    (isDominosSym c &&
      (let p := takeDigits rest
       !p.1.isEmpty &&
         match p.2 with
         | '.' :: a :: b :: _ => a.isDigit && b.isDigit
         | _ => false))
    || hasSymPriceShape rest

/-- Fallback loop of `DominosPlatform.extractTotalPrice` over the elements of
`querySelectorAll('*[class*="total"], *[data-quid*="total"]')`. -/
def dominosFallbackTotals : List El → Option (ℕ × String)
  | [] => none
  | el :: rest =>
    if hasSymPriceShape el.textContent.data then
      match parseDominosPrice el.textContent with
      | some pr => some pr
      | none => dominosFallbackTotals rest
    else dominosFallbackTotals rest

/-- `DominosPlatform.extractTotalPrice`. -/
def dominosExtractTotalPrice (d : Doc) : Option (ℕ × String) :=
  match dominosTryTotals d dominosTotalPriceSelectors with
  | some pr => some pr
  | none => dominosFallbackTotals (d.queryAll "*[class*=\"total\"], *[data-quid*=\"total\"]")

/-- The per-container loop of `DominosPlatform.extractOrderItems`: one item per
cart container, with name and price from sub-queries, a positional default
name, and price 0 when the price element is missing or unparsable. -/
def dominosRawItems (d : Doc) : List CheckoutItem :=
  (d.queryAll (String.intercalate ", " dominosCartItemSelectors)).enum.map fun p =>
    let defaultName := "Pizza Item " ++ toString (p.1 + 1)
    let name :=
      match p.2.subText (String.intercalate ", " dominosItemNameSelectors) with
      | some t => if (jsTrim t).isEmpty then defaultName else jsTrim t
      | none => defaultName
    let price :=
      match p.2.subText (String.intercalate ", " dominosItemPriceSelectors) with
      | some t =>
        match parseDominosPrice t with
        | some pr => pr.1
        | none => 0
      | none => 0
    { name := name, platform := "dominos", priceCents := some price,
      itemType := some "food" : CheckoutItem }

/-- `DominosPlatform.extractOrderItems`: the per-container items, a single
generic entry if no container resolved, truncated to 10. -/
def dominosExtractOrderItems (d : Doc) : List CheckoutItem :=
  (if (dominosRawItems d).isEmpty then
    [{ name := "Domino's Order", platform := "dominos", itemType := some "food" }]
  else dominosRawItems d).take 10

/-- `DominosPlatform.getCheckoutInfo` (the URL and clock reads are passed in). -/
def dominosGetCheckoutInfo (d : Doc) (url : String) (now : ℕ) : Option CheckoutInfo :=
  match dominosExtractTotalPrice d with
  | none => none
  | some pr =>
    some { platform := "dominos", totalAmountCents := pr.1, currency := pr.2,
           items := dominosExtractOrderItems d, checkoutUrl := url, timestamp := now }

/-- `DominosPlatform.isDetected`: substring domain check, then relevant-path
heuristic or one of the three structural probes (order total, cart items,
payment section). -/
def dominosIsDetected (hostname pathname : String) (d : Doc) : Bool :=
  let isDominosDomain := dominosSupportedDomains.any fun dom => strIncludes hostname dom
  if !isDominosDomain then false
  else
    let isRelevantPage := dominosRelevantPaths.any fun pth => strIncludes pathname pth
    let hasOrderTotal := (findElement d dominosTotalPriceSelectors).isSome
    let hasCartItems := (findElement d dominosCartItemSelectors).isSome
    let hasPaymentSection := (findElement d dominosPaymentSectionSelectors).isSome
    isRelevantPage || hasOrderTotal || hasCartItems || hasPaymentSection

def dominosSuccessSelectors : List String :=
  [".gift-card-success", ".promo-success", "[data-quid*=\"success\"]", ".alert-success"]

def dominosBalanceSelectors : List String :=
  [".gift-card-balance", "[data-quid*=\"gift-card-applied\"]", ".applied-gift-card"]

def dominosDiscountSelectors : List String :=
  [".discount-line", ".gift-card-discount", "[data-quid*=\"discount\"]"]

/-- `DominosPlatform.verifyGiftCardApplication`, evaluated after the settle
delay: success text containing "applied", then a balance element, then the
freshly re-extracted total parsing to a positive amount (the source comments
that a comparison with the previous total would be needed but performs none),
then a discount-line element. -/
def dominosVerifyGiftCardApplication (d : Doc) : Bool :=
  (dominosSuccessSelectors.any fun sel =>
    match d.query sel with
    | some el => strIncludes (strToLower el.textContent) "applied"
    | none => false) ||
  (dominosBalanceSelectors.any fun sel => (d.query sel).isSome) ||
  (match dominosExtractTotalPrice d with
   | some pr => decide (0 < pr.1)
   | none => false) ||
  (dominosDiscountSelectors.any fun sel => (d.query sel).isSome)

def dominosInjectionSelectors : List String :=
  ["[data-quid=\"payment-section\"]", ".payment-methods", ".checkout-payment",
   ".payment-options"]

def dominosFallbackInjectionSelectors : List String :=
  [".checkout-container", ".order-summary", ".cart-summary", "#checkout-content"]

/-- `DominosPlatform.getButtonInjectionPoint`. -/
def dominosGetButtonInjectionPoint (d : Doc) : Option El :=
  match findElement d dominosInjectionSelectors with
  | some el => some el
  | none => findElement d dominosFallbackInjectionSelectors

/-! ## Amazon selector chains and extraction (`AmazonPlatform`) -/

def amazonSupportedDomains : List String :=
  ["amazon.com", "amazon.co.uk", "amazon.de", "amazon.fr",
   "amazon.it", "amazon.es", "amazon.ca", "amazon.com.au"]

def amazonTotalPriceSelectors : List String :=
  ["#subtotals-marketplace-table .grand-total-price", ".grand-total-price-value",
   "#subtotals-marketplace-spc .a-offscreen",
   "span[data-feature-name=\"subtotals\"] .currencyINR"]

def amazonProductPriceSelectors : List String :=
  [".a-price-whole", "#priceblock_dealprice", "#priceblock_ourprice", ".a-offscreen"]

def amazonBuyNowSelectors : List String :=
  ["#buy-now-button", "input[name=\"submit.buy-now\"]"]

def amazonCheckoutPaths : List String :=
  ["/gp/buy/", "/checkout/", "/gp/cart/view.html", "/gp/cart/", "/ap/signin"]

/-- One selector-chain walk of `AmazonPlatform.extractTotalPrice`. -/
def amazonTryTotals (d : Doc) : List String → Option (ℕ × String)
  | [] => none
  | s :: rest =>
    match d.query s with
    | some el =>
      match parseAmazonPrice el.textContent with
      | some pr => some pr
      | none => amazonTryTotals d rest
    | none => amazonTryTotals d rest

/-- `AmazonPlatform.extractTotalPrice`: checkout selectors first, then the
product-page selectors. -/
def amazonExtractTotalPrice (d : Doc) : Option (ℕ × String) :=
  match amazonTryTotals d amazonTotalPriceSelectors with
  | some pr => some pr
  | none => amazonTryTotals d amazonProductPriceSelectors

def amazonItemSelectors : List String :=
  [".sc-item-content-group", ".a-row.sc-item-row", "[data-name=\"Active Items\"] .sc-list-item"]

/-- The per-selector loop of `AmazonPlatform.extractItems`: the first selector
whose `querySelectorAll` yields any containers contributes all of them. -/
def amazonItemsLoop (d : Doc) : List String → List CheckoutItem
  | [] => []
  | sel :: rest =>
    let items := (d.queryAll sel).enum.map fun p =>
      let defaultName := "Item " ++ toString (p.1 + 1)
      let title :=
        match p.2.subText ".sc-product-title, .a-truncate-full" with
        | some t => if (jsTrim t).isEmpty then defaultName else jsTrim t
        | none => defaultName
      { name := title, platform := "amazon" : CheckoutItem }
    if items.isEmpty then amazonItemsLoop d rest else items

/-- `AmazonPlatform.extractItems`: bounded to 5, with no generic fallback entry
(an empty result is returned as-is). -/
def amazonExtractItems (d : Doc) : List CheckoutItem :=
  (amazonItemsLoop d amazonItemSelectors).take 5

/-- `AmazonPlatform.getCheckoutInfo`. -/
def amazonGetCheckoutInfo (d : Doc) (url : String) (now : ℕ) : Option CheckoutInfo :=
  match amazonExtractTotalPrice d with
  | none => none
  | some pr =>
    some { platform := "amazon", totalAmountCents := pr.1, currency := pr.2,
           items := amazonExtractItems d, checkoutUrl := url, timestamp := now }

/-- `AmazonPlatform.isDetected`: substring domain check, then checkout-path
heuristic or the buy-now-button probe (no other selector chain is probed). -/
def amazonIsDetected (hostname pathname : String) (d : Doc) : Bool :=
  let isAmazonDomain := amazonSupportedDomains.any fun dom => strIncludes hostname dom
  if !isAmazonDomain then false
  else
    let isCheckoutPage := amazonCheckoutPaths.any fun pth => strIncludes pathname pth
    let hasBuyNowButton := (findElement d amazonBuyNowSelectors).isSome
    isCheckoutPage || hasBuyNowButton

def amazonSuccessSelectors : List String :=
  [".a-alert-success", ".gc-redemption-success", "[data-testid=\"gc-redemption-success\"]",
   ".a-alert-content:contains(\"applied\")"]

def amazonBalanceSelectors : List String :=
  [".gc-redemption-balance", "[data-testid=\"gift-card-balance\"]"]

/-- `AmazonPlatform.verifyGiftCardApplication`: success text containing
"applied", then a balance element, then the freshly re-extracted total parsing
to a positive amount (again with no comparison against the previous total). -/
def amazonVerifyGiftCardApplication (d : Doc) : Bool :=
  (amazonSuccessSelectors.any fun sel =>
    match d.query sel with
    | some el => strIncludes (strToLower el.textContent) "applied"
    | none => false) ||
  (amazonBalanceSelectors.any fun sel => (d.query sel).isSome) ||
  (match amazonExtractTotalPrice d with
   | some pr => decide (0 < pr.1)
   | none => false)

def amazonInjectionSelectors : List String :=
  ["#checkout-button-group", "#placeYourOrder", ".a-button-group-vertical",
   ".pmts-button-group"]

def amazonFallbackInjectionSelectors : List String :=
  ["#subtotals-marketplace-table", ".a-box-group"]

/-- `AmazonPlatform.getButtonInjectionPoint`. -/
def amazonGetButtonInjectionPoint (d : Doc) : Option El :=
  match findElement d amazonInjectionSelectors with
  | some el => some el
  | none => findElement d amazonFallbackInjectionSelectors

/-! ## Netflix selector chains and extraction (`NetflixPlatform`) -/

def netflixSupportedDomains : List String :=
  ["netflix.com", "netflix.co.uk", "netflix.de", "netflix.fr",
   "netflix.it", "netflix.es", "netflix.ca", "netflix.com.au",
   "netflix.co.jp", "netflix.in"]

def netflixTotalPriceSelectors : List String :=
  ["[data-uia=\"plan-price\"]", ".price-display .currency-price",
   ".plan-price .amount", ".plan-selection-price"]

def netflixGiftCardSectionSelectors : List String :=
  ["[data-uia=\"gift-card-section\"]", ".gift-card-redemption", "#gift-code-section",
   ".redeem-gift-container"]

def netflixPlanSelectionSelectors : List String :=
  ["[data-uia=\"plan-selection-container\"]", ".plan-selection-wrapper", ".planGrid"]

def netflixSelectedPlanSelectors : List String :=
  ["[data-uia=\"plan-selection-option\"][aria-checked=\"true\"]", ".plan-option.selected",
   ".plan-selected"]

def netflixPaymentStepSelectors : List String :=
  ["[data-uia=\"payment-picker-container\"]", ".payment-method-container", ".payment-picker"]

def netflixContinueButtonSelectors : List String :=
  ["[data-uia=\"payment-picker-continue\"]", "button[data-uia=\"continue-button\"]",
   ".btn-continue"]

def netflixRelevantPaths : List String :=
  ["/signup", "/redeem", "/gift-redemption", "/payment", "/planform"]

/-- First loop of `NetflixPlatform.extractPlanPrice`. -/
def netflixTryTotals (d : Doc) : List String → Option (ℕ × String)
  | [] => none
  | s :: rest =>
    match d.query s with
    | some el =>
      match parseNetflixPrice el.textContent with
      | some pr => some pr
      | none => netflixTryTotals d rest
    | none => netflixTryTotals d rest

/-- Second phase of `NetflixPlatform.extractPlanPrice`: the price sub-elements
of the selected plan. -/
def netflixPlanPriceTexts : List String → Option (ℕ × String)
  | [] => none
  | t :: rest =>
    match parseNetflixPrice t with
    | some pr => some pr
    | none => netflixPlanPriceTexts rest

/-- `NetflixPlatform.extractPlanPrice`. -/
def netflixExtractPlanPrice (d : Doc) : Option (ℕ × String) :=
  match netflixTryTotals d netflixTotalPriceSelectors with
  | some pr => some pr
  | none =>
    match findElement d netflixSelectedPlanSelectors with
    | some el => netflixPlanPriceTexts (el.subAllTexts ".price, .amount, [data-uia*=\"price\"]")
    | none => none

/-- `NetflixPlatform.extractSelectedPlan`: always exactly one item — the
selected plan's title when one resolves, a generic subscription entry
otherwise. -/
def netflixExtractSelectedPlan (d : Doc) : List CheckoutItem :=
  match findElement d netflixSelectedPlanSelectors with
  | some el =>
    let title :=
      match el.subText "[data-uia*=\"plan\"], .plan-title, .plan-name" with
      | some t => if (jsTrim t).isEmpty then "Netflix Subscription" else jsTrim t
      | none => "Netflix Subscription"
    [{ name := title, platform := "netflix", itemType := some "subscription" }]
  | none =>
    [{ name := "Netflix Subscription", platform := "netflix", itemType := some "subscription" }]

/-- `NetflixPlatform.getCheckoutInfo`. -/
def netflixGetCheckoutInfo (d : Doc) (url : String) (now : ℕ) : Option CheckoutInfo :=
  match netflixExtractPlanPrice d with
  | none => none
  | some pr =>
    some { platform := "netflix", totalAmountCents := pr.1, currency := pr.2,
           items := netflixExtractSelectedPlan d, checkoutUrl := url, timestamp := now }

/-- `NetflixPlatform.isDetected`. -/
def netflixIsDetected (hostname pathname : String) (d : Doc) : Bool :=
  let isNetflixDomain := netflixSupportedDomains.any fun dom => strIncludes hostname dom
  if !isNetflixDomain then false
  else
    let isRelevantPage := netflixRelevantPaths.any fun pth => strIncludes pathname pth
    let hasPlanSelection := (findElement d netflixPlanSelectionSelectors).isSome
    let hasPaymentStep := (findElement d netflixPaymentStepSelectors).isSome
    let hasGiftCardSection := (findElement d netflixGiftCardSectionSelectors).isSome
    isRelevantPage || hasPlanSelection || hasPaymentStep || hasGiftCardSection

def netflixSuccessSelectors : List String :=
  ["[data-uia=\"redeem-success\"]", ".redeem-success-message", ".gift-success",
   ".success-message"]

def netflixBalanceSelectors : List String :=
  ["[data-uia=\"account-balance\"]", ".account-balance", ".gift-balance"]

/-- `NetflixPlatform.verifyGiftCardRedemption`: success text containing
"success", then a balance element, then an enabled continue button (no total
re-extraction at all). -/
def netflixVerifyGiftCardRedemption (d : Doc) : Bool :=
  (netflixSuccessSelectors.any fun sel =>
    match d.query sel with
    | some el => strIncludes (strToLower el.textContent) "success"
    | none => false) ||
  (netflixBalanceSelectors.any fun sel => (d.query sel).isSome) ||
  (match findElement d netflixContinueButtonSelectors with
   | some el => !el.disabled
   | none => false)

def netflixInjectionSelectors : List String :=
  ["[data-uia=\"payment-picker-container\"]", ".payment-method-container",
   ".plan-selection-wrapper", ".redeem-gift-container"]

def netflixFallbackInjectionSelectors : List String :=
  [".signup-body", ".main-content", ".center-content"]

/-- `NetflixPlatform.getButtonInjectionPoint`. -/
def netflixGetButtonInjectionPoint (d : Doc) : Option El :=
  match findElement d netflixInjectionSelectors with
  | some el => some el
  | none => findElement d netflixFallbackInjectionSelectors

/-! ## Platform registry (`src/unnamed/part_008`) -/

inductive Platform
  | amazon
  | netflix
  | dominos
  deriving DecidableEq, Repr

/-- Dispatch of `isDetected` over the registry entries. -/
def isDetectedP : Platform → String → String → Doc → Bool
  | .amazon => amazonIsDetected
  | .netflix => netflixIsDetected
  | .dominos => dominosIsDetected

/-- `PLATFORM_LIST`: the fixed registry order. -/
def PLATFORM_LIST : List Platform := [.amazon, .netflix, .dominos]

/-- `detectCurrentPlatform`: first registry entry whose `isDetected()` is true. -/
def detectCurrentPlatform (hostname pathname : String) (d : Doc) : Option Platform :=
  PLATFORM_LIST.find? fun pl => isDetectedP pl hostname pathname d

/-- Dispatch of `getButtonInjectionPoint` over the registry entries. -/
def getButtonInjectionPointP : Platform → Doc → Option El
  | .amazon => amazonGetButtonInjectionPoint
  | .netflix => netflixGetButtonInjectionPoint
  | .dominos => dominosGetButtonInjectionPoint


/-! ## Content-script session state (`PaymintContentScript`,
`src/extension/src/content/content-script.ts`)

The class fields `currentPlatform`, `payButton`, `observer` and the ad-hoc
`detectionTimeout` property become the state below.  Three counters instrument
the semantics for the temporal claims: `mountedButtons` counts pay affordances
appended to the page, `retryInvocations` counts invocations of
`retryPlatformDetection`, and `inFlightApplications` counts
`platform.applyGiftCard` runs that have started but not yet settled.  Each
counter changes exactly when the corresponding source event occurs. -/

structure CSState where
  currentPlatform : Option Platform
  payButton : Bool
  observerConnected : Bool
  detectionTimer : Option ℕ
  inFlightApplications : ℕ
  mountedButtons : ℕ
  retryInvocations : ℕ
  deriving DecidableEq, Repr

/-- The page environment a scan runs against (`window.location` and the DOM). -/
structure PageEnv where
  hostname : String
  pathname : String
  doc : Doc

/-- `PaymintContentScript.injectPayButton`: return early when no platform is
set or an affordance already exists; return early when no injection point
resolves; otherwise create the button, store it in `payButton`, and append it
to the injection point. -/
def injectPayButton (e : PageEnv) (s : CSState) : CSState :=
  match s.currentPlatform with
  | none => s
  | some pl =>
    if s.payButton then s
    else
      match getButtonInjectionPointP pl e.doc with
      | none => s
      | some _ => { s with payButton := true, mountedButtons := s.mountedButtons + 1 }

/-- `PaymintContentScript.detectAndSetupPlatform` together with
`setupPlatformIntegration`: registry detection; on a match, store the platform
(the snapshot extraction and coordinator notification are pure reads and
outbound I/O) and inject the pay button. -/
def detectAndSetupPlatform (e : PageEnv) (s : CSState) : CSState :=
  match detectCurrentPlatform e.hostname e.pathname e.doc with
  | none => s
  | some pl => injectPayButton e { s with currentPlatform := some pl }

/-- `PaymintContentScript.retryPlatformDetection`: a no-op when a platform is
already detected and the affordance already mounted, otherwise a fresh
detect-and-setup pass. -/
def retryPlatformDetection (e : PageEnv) (s : CSState) : CSState :=
  if s.currentPlatform.isSome && s.payButton then s
  else detectAndSetupPlatform e s

/-- The node kinds distinguished by the observer callback
(`node.nodeType === Node.ELEMENT_NODE`). -/
inductive NodeKind
  | element
  | text
  | comment
  deriving DecidableEq, Repr

/-- One `MutationRecord` as the callback inspects it. -/
structure Mutation where
  isChildList : Bool
  addedNodes : List NodeKind
  deriving DecidableEq, Repr

/-- The `shouldCheck` computation of the `MutationObserver` callback in
`setupMutationObserver`: some record is a `childList` mutation whose added
nodes include an element node. -/
def shouldCheck (muts : List Mutation) : Bool :=
  muts.any fun m =>
    m.isChildList && m.addedNodes.any fun n =>
      match n with
      | NodeKind.element => true
      | _ => false

/-- Delivery of one observer callback at time `t`: if the batch added element
nodes, `clearTimeout(detectionTimeout)` cancels any pending re-scan and
`setTimeout(…, 1000)` schedules a new one at `t + 1000`. -/
def mutationCallback (t : ℕ) (muts : List Mutation) (s : CSState) : CSState :=
  if shouldCheck muts then { s with detectionTimer := some (t + 1000) }
  else s

/-- Timer delivery before handling an event at time `t`: a pending
`detectionTimeout` whose deadline has passed fires, invoking
`retryPlatformDetection` exactly once. -/
def fireDetectionTimerIfDue (e : PageEnv) (t : ℕ) (s : CSState) : CSState :=
  match s.detectionTimer with
  | some dl =>
    if dl ≤ t then
      retryPlatformDetection e
        { s with detectionTimer := none, retryInvocations := s.retryInvocations + 1 }
    else s
  | none => s

/-- Event-loop step for one timed mutation batch. -/
def observerStep (e : PageEnv) (s : CSState) (ev : ℕ × List Mutation) : CSState :=
  mutationCallback ev.1 ev.2 (fireDetectionTimerIfDue e ev.1 s)

/-- Run a timed trace of mutation batches. -/
def runMutationTrace (e : PageEnv) (s : CSState) (evs : List (ℕ × List Mutation)) : CSState :=
  evs.foldl (observerStep e) s

/-- Let the clock pass every deadline: a still-pending timer fires. -/
def flushTimer (e : PageEnv) (s : CSState) : CSState :=
  match s.detectionTimer with
  | some _ =>
    retryPlatformDetection e
      { s with detectionTimer := none, retryInvocations := s.retryInvocations + 1 }
  | none => s

/-- `burstFrom t evs`: every event in `evs` is an element-adding batch that
arrives no earlier than its predecessor and before the predecessor's debounce
deadline (predecessor time `+ 1000`). -/
def burstFrom : ℕ → List (ℕ × List Mutation) → Bool
  | _, [] => true
  | t, ev :: rest =>
    decide (t ≤ ev.1) && decide (ev.1 < t + 1000) && shouldCheck ev.2 && burstFrom ev.1 rest

/-- `PaymintContentScript.applyGiftCard` as triggered by an inbound
`APPLY_GIFT_CARD` command: with no platform it only logs an error; otherwise it
starts `platform.applyGiftCard` — unconditionally, with no check for an attempt
already in flight and no queueing. -/
def applyGiftCardCommand (s : CSState) : CSState :=
  match s.currentPlatform with
  | none => s
  | some _ => { s with inFlightApplications := s.inFlightApplications + 1 }

/-- The `APPLY_GIFT_CARD` branch of `setupMessageListener`: a fire-and-forget
call of `applyGiftCard(message.giftCardData)` followed immediately by
`sendResponse` with `success: true` — the response never depends on an attempt
being in flight. -/
def handleApplyGiftCardMessage (s : CSState) : CSState × Bool :=
  (applyGiftCardCommand s, true)

/-- Settlement of one platform `applyGiftCard` run (its promise resolves and
the outcome is reported). -/
def applicationSettled (s : CSState) : CSState :=
  { s with inFlightApplications := s.inFlightApplications - 1 }

/-- `PaymintContentScript.cleanup`, run by the `beforeunload` listener:
disconnect and drop the observer if present, remove and drop the pay button if
present.  The function contains no `clearTimeout`, so the `detectionTimeout`
debounce timer is left untouched. -/
def cleanup (s : CSState) : CSState :=
  let s1 := if s.observerConnected then { s with observerConnected := false } else s
  if s1.payButton then
    { s1 with payButton := false, mountedButtons := s1.mountedButtons - 1 }
  else s1

/-! ## The spec's claimed verification heuristics (for claim C1) -/

/-- Modelled from the spec (§4.5, Verifying): the claimed heuristic set for the
Domino's verification step — an explicit success-text element, the appearance
of a balance/discount line item, an "applied" indicator, or an observed
*decrease* of the freshly re-extracted total below the pre-redemption total
`prevCents`.  The first three heuristics are read over the very selector sets
the code consults; the decrease comparison is the one the source never
performs. -/
def specVerifyDominos (prevCents : ℕ) (d : Doc) : Bool :=
  (dominosSuccessSelectors.any fun sel => (d.query sel).isSome) ||
  ((dominosBalanceSelectors ++ dominosDiscountSelectors).any fun sel => (d.query sel).isSome) ||
  (dominosSuccessSelectors.any fun sel =>
    match d.query sel with
    | some el => strIncludes (strToLower el.textContent) "applied"
    | none => false) ||
  (match dominosExtractTotalPrice d with
   | some pr => decide (pr.1 < prevCents)
   | none => false)

/-! ## Concrete fixtures -/

/-- An element with only text content. -/
def elOfText (t : String) : El :=
  { textContent := t, disabled := false, subText := fun _ => none, subAllTexts := fun _ => [] }

/-- A page on which nothing resolves. -/
def emptyDoc : Doc := { query := fun _ => none, queryAll := fun _ => [] }

/-- A Domino's checkout page whose only recognisable content is an order total
of $25.99 — unchanged from before the redemption attempt; nothing else
resolves. -/
def dominosTotalOnlyDoc : Doc :=
  { query := fun sel =>
      if sel == "[data-quid=\"order-summary-total\"]" then some (elOfText "$25.99") else none,
    queryAll := fun _ => [] }

/-- An Amazon checkout page exposing only a grand total of $25.99: no item
containers resolve anywhere. -/
def amazonTotalOnlyDoc : Doc :=
  { query := fun sel =>
      if sel == "#subtotals-marketplace-table .grand-total-price" then some (elOfText "$25.99")
      else none,
    queryAll := fun _ => [] }

/-- An environment for concrete runs: an unsupported host with an empty page. -/
def blankEnv : PageEnv := { hostname := "example.org", pathname := "/", doc := emptyDoc }

/-- A fresh session: nothing detected, nothing mounted, nothing pending. -/
def initialState : CSState :=
  { currentPlatform := none, payButton := false, observerConnected := true,
    detectionTimer := none, inFlightApplications := 0, mountedButtons := 0,
    retryInvocations := 0 }

/-- A session with Domino's detected, no affordance yet, and no attempt in
flight. -/
def readyState : CSState :=
  { currentPlatform := some Platform.dominos, payButton := false, observerConnected := true,
    detectionTimer := none, inFlightApplications := 0, mountedButtons := 0,
    retryInvocations := 0 }

/-- A session with Domino's detected and the affordance mounted. -/
def mountedState : CSState :=
  { currentPlatform := some Platform.dominos, payButton := true, observerConnected := true,
    detectionTimer := none, inFlightApplications := 0, mountedButtons := 1,
    retryInvocations := 0 }

/-- A session about to be torn down while a debounced re-scan is still
pending. -/
def pendingTimerState : CSState :=
  { currentPlatform := none, payButton := true, observerConnected := true,
    detectionTimer := some 1000, inFlightApplications := 0, mountedButtons := 1,
    retryInvocations := 0 }

/-- One mutation batch that adds a single element node. -/
def elementBatch : List Mutation := [{ isChildList := true, addedNodes := [NodeKind.element] }]

/-- The tail of a demonstration burst: further element-adding batches 300 ms
apart, all inside the 1000 ms debounce window of their predecessor. -/
def demoBurstTail : List (ℕ × List Mutation) := [(300, elementBatch), (600, elementBatch)]


/-! ## Helper lemmas -/

/-- A selector chain resolves iff one of its selectors does. -/
theorem findElement_isSome_iff (d : Doc) (sels : List String) :
    (findElement d sels).isSome = true ↔ ∃ sel ∈ sels, (d.query sel).isSome = true := by
  induction sels with
  | nil => simp [findElement]
  | cons s rest ih =>
    cases h : d.query s with
    | none => simp [findElement, h, ih]
    | some el => simp [findElement, h]

/-- Text-matching loop over a selector list, in `∃` form. -/
theorem query_text_match_iff (d : Doc) (needle sel : String) :
    ((match d.query sel with
      | some el => strIncludes (strToLower el.textContent) needle
      | none => false) = true) ↔
      ∃ el, d.query sel = some el ∧ strIncludes (strToLower el.textContent) needle = true := by
  cases h : d.query sel <;> simp [h]

/-- The re-extracted-total branch of the verification steps, in `∃` form. -/
theorem total_pos_match_iff (o : Option (ℕ × String)) :
    ((match o with
      | some pr => decide (0 < pr.1)
      | none => false) = true) ↔ ∃ a c, o = some (a, c) ∧ 0 < a := by
  cases o with
  | none => simp
  | some pr => cases pr with
    | mk a c => simp

/-- The enabled-continue-button branch of the Netflix verification, in `∃`
form. -/
theorem continue_enabled_match_iff (d : Doc) :
    ((match findElement d netflixContinueButtonSelectors with
      | some el => !el.disabled
      | none => false) = true) ↔
      ∃ el, findElement d netflixContinueButtonSelectors = some el ∧ el.disabled = false := by
  cases h : findElement d netflixContinueButtonSelectors <;> simp [h]

/-- A bounded list with a placeholder substituted for emptiness is short and
nonempty. -/
theorem bounded_with_placeholder (l : List CheckoutItem) (x : CheckoutItem) :
    ((if l.isEmpty then [x] else l).take 10).length ≤ 10 ∧
    (if l.isEmpty then [x] else l).take 10 ≠ [] := by
  cases l with
  | nil => simp
  | cons a t =>
    refine ⟨?_, ?_⟩
    · simp [List.length_take]
    · simp [List.take]

/-! ## Claim theorems -/

/-- **C2** (code bug).  The gate example `"$1,234.56"` of the spec's price-parser
table: Domino's and Netflix return amount 1 (100 cents) with currency USD —
their symbol-prefixed pattern, which admits no comma grouping, matches the
prefix `$1` first, and first-match-wins makes Domino's comma-grouped pattern
(present in the source expressly for this format) unreachable.  Only Amazon
returns the claimed 1234.56 (123456 cents). -/
theorem comma_grouped_price_parsing :
    parseDominosPrice "$1,234.56" = some (100, "USD") ∧
    parseNetflixPrice "$1,234.56" = some (100, "USD") ∧
    parseAmazonPrice "$1,234.56" = some (123456, "USD") := by
  refine ⟨?_, ?_, ?_⟩ <;> decide

/-- **C3** counterexample.  Two `APPLY_GIFT_CARD` commands with no settlement
in between leave two platform `applyGiftCard` runs in flight, and both
commands are answered `success: true`: the second is neither rejected
synchronously nor queued, contradicting the claimed one-attempt-in-flight
rule. -/
theorem concurrent_apply_not_rejected :
    (handleApplyGiftCardMessage (handleApplyGiftCardMessage readyState).1).1.inFlightApplications
        = 2 ∧
    (handleApplyGiftCardMessage readyState).2 = true ∧
    (handleApplyGiftCardMessage (handleApplyGiftCardMessage readyState).1).2 = true := by
  refine ⟨?_, ?_, ?_⟩ <;> decide

/-- **C3** (amended).  The content script performs no concurrency control on
gift-card application: the only synchronous check is that a platform has been
detected.  Every `APPLY_GIFT_CARD` command received with a platform detected
starts one more `platform.applyGiftCard` run, regardless of how many are
already in flight (so concurrent attempts can interleave typing); a command
with no platform detected changes nothing. -/
theorem apply_gift_card_no_concurrency_guard (s : CSState) :
    (s.currentPlatform.isSome = true →
      (applyGiftCardCommand s).inFlightApplications = s.inFlightApplications + 1) ∧
    (s.currentPlatform = none → applyGiftCardCommand s = s) := by
  constructor
  · intro h
    cases hc : s.currentPlatform with
    | none => rw [hc] at h; simp at h
    | some pl => simp [applyGiftCardCommand, hc]
  · intro h
    simp [applyGiftCardCommand, h]

/-- Witness for C3's amended theorem: from a session with one attempt already
in flight, a further command raises the count to two. -/
theorem apply_gift_card_no_concurrency_guard_witness :
    (applyGiftCardCommand (applyGiftCardCommand readyState)).inFlightApplications =
      (applyGiftCardCommand readyState).inFlightApplications + 1 :=
  (apply_gift_card_no_concurrency_guard (applyGiftCardCommand readyState)).1 (by decide)

/-- **C4**.  For every platform, `getCheckoutInfo()` is exactly the
`Option.map` image of the total-price extraction: it returns `null` precisely
when the total cannot be located or its text fails parsing, and otherwise a
snapshot with every field populated (platform id, total, currency, the
extracted items, URL, timestamp).  The embedded functions are total, so no
exception can escape (the source additionally wraps the body in a catch-all
returning `null`). -/
theorem get_checkout_info_total_or_null (d : Doc) (url : String) (now : ℕ) :
    dominosGetCheckoutInfo d url now =
      (dominosExtractTotalPrice d).map (fun pr =>
        { platform := "dominos", totalAmountCents := pr.1, currency := pr.2,
          items := dominosExtractOrderItems d, checkoutUrl := url, timestamp := now }) ∧
    amazonGetCheckoutInfo d url now =
      (amazonExtractTotalPrice d).map (fun pr =>
        { platform := "amazon", totalAmountCents := pr.1, currency := pr.2,
          items := amazonExtractItems d, checkoutUrl := url, timestamp := now }) ∧
    netflixGetCheckoutInfo d url now =
      (netflixExtractPlanPrice d).map (fun pr =>
        { platform := "netflix", totalAmountCents := pr.1, currency := pr.2,
          items := netflixExtractSelectedPlan d, checkoutUrl := url, timestamp := now }) := by
  refine ⟨?_, ?_, ?_⟩
  · cases h : dominosExtractTotalPrice d <;> simp [dominosGetCheckoutInfo, h]
  · cases h : amazonExtractTotalPrice d <;> simp [amazonGetCheckoutInfo, h]
  · cases h : netflixExtractPlanPrice d <;> simp [netflixGetCheckoutInfo, h]

/-- **C5** counterexample.  On an Amazon page exposing only a grand total,
extraction succeeds with an *empty* item list: `AmazonPlatform.extractItems`
substitutes no generic placeholder, so a successful extraction does not always
yield at least one item. -/
theorem amazon_items_empty_counterexample :
    amazonGetCheckoutInfo amazonTotalOnlyDoc "https://amazon.com/gp/buy/" 0 =
      some { platform := "amazon", totalAmountCents := 2599, currency := "USD",
             items := [], checkoutUrl := "https://amazon.com/gp/buy/", timestamp := 0 } := by
  decide

/-- **C5** (amended).  Line-item extraction is bounded by a small fixed
maximum — 10 for Domino's, 5 for Amazon, exactly 1 for Netflix — and the
generic-placeholder substitution exists for Domino's (so its list is never
empty) and for Netflix (always exactly one item), but *not* for Amazon, whose
item list may be empty even when extraction succeeds. -/
theorem line_item_bounds (d : Doc) :
    ((dominosExtractOrderItems d).length ≤ 10 ∧ dominosExtractOrderItems d ≠ []) ∧
    (netflixExtractSelectedPlan d).length = 1 ∧
    (amazonExtractItems d).length ≤ 5 := by
  refine ⟨bounded_with_placeholder (dominosRawItems d) _, ?_, ?_⟩
  · unfold netflixExtractSelectedPlan
    cases h : findElement d netflixSelectedPlanSelectors <;> simp
  · unfold amazonExtractItems
    simp [List.length_take]

/-- **C7**.  Platform detection walks the registry in its fixed order —
Amazon, then Netflix, then Domino's — and returns the first profile whose
`isDetected()` is true, or `null` when none matches; in particular at most one
profile is active for a page. -/
theorem detect_first_match (h p : String) (d : Doc) :
    detectCurrentPlatform h p d =
      (if amazonIsDetected h p d then some Platform.amazon
       else if netflixIsDetected h p d then some Platform.netflix
       else if dominosIsDetected h p d then some Platform.dominos
       else none) := by
  cases hA : amazonIsDetected h p d <;> cases hN : netflixIsDetected h p d <;>
    cases hD : dominosIsDetected h p d <;>
      simp [detectCurrentPlatform, PLATFORM_LIST, List.find?, isDetectedP, hA, hN, hD]

/-- **C10** (code bug).  `cleanup()` disconnects the observer and removes the
mounted affordance, but contains no `clearTimeout`: a pending
debounce/detection timer survives teardown, and once its deadline passes the
stale `retryPlatformDetection` callback still fires against the torn-down
page. -/
theorem cleanup_leaves_detection_timer :
    (cleanup pendingTimerState).observerConnected = false ∧
    (cleanup pendingTimerState).payButton = false ∧
    (cleanup pendingTimerState).mountedButtons = 0 ∧
    (cleanup pendingTimerState).detectionTimer = some 1000 ∧
    (fireDetectionTimerIfDue blankEnv 1000 (cleanup pendingTimerState)).retryInvocations =
      pendingTimerState.retryInvocations + 1 := by
  refine ⟨?_, ?_, ?_, ?_, ?_⟩ <;> decide


/-- Bool-level normal form of `dominosIsDetected`. -/
theorem dominosIsDetected_eq (h p : String) (d : Doc) :
    dominosIsDetected h p d =
      ((dominosSupportedDomains.any fun dom => strIncludes h dom) &&
        ((dominosRelevantPaths.any fun pth => strIncludes p pth) ||
          (findElement d dominosTotalPriceSelectors).isSome ||
          (findElement d dominosCartItemSelectors).isSome ||
          (findElement d dominosPaymentSectionSelectors).isSome)) := by
  unfold dominosIsDetected
  cases dominosSupportedDomains.any fun dom => strIncludes h dom <;> simp

/-- Bool-level normal form of `amazonIsDetected`. -/
theorem amazonIsDetected_eq (h p : String) (d : Doc) :
    amazonIsDetected h p d =
      ((amazonSupportedDomains.any fun dom => strIncludes h dom) &&
        ((amazonCheckoutPaths.any fun pth => strIncludes p pth) ||
          (findElement d amazonBuyNowSelectors).isSome)) := by
  unfold amazonIsDetected
  cases amazonSupportedDomains.any fun dom => strIncludes h dom <;> simp

/-- Bool-level normal form of `netflixIsDetected`. -/
theorem netflixIsDetected_eq (h p : String) (d : Doc) :
    netflixIsDetected h p d =
      ((netflixSupportedDomains.any fun dom => strIncludes h dom) &&
        ((netflixRelevantPaths.any fun pth => strIncludes p pth) ||
          (findElement d netflixPlanSelectionSelectors).isSome ||
          (findElement d netflixPaymentStepSelectors).isSome ||
          (findElement d netflixGiftCardSectionSelectors).isSome)) := by
  unfold netflixIsDetected
  cases netflixSupportedDomains.any fun dom => strIncludes h dom <;> simp

/-- **C1** (amended).  For each platform the verification step reports
`Succeeded` exactly when at least one of the heuristics the code actually
evaluates matches, and `Failed` when none does.  For Domino's: success text
containing "applied", a balance element, the freshly re-extracted total
parsing to a *positive* amount (no comparison against the previous total is
performed, so any parsable positive total counts, decreased or not), or a
discount-line element.  For Amazon: the same first three (no discount check).
For Netflix: success text containing "success", a balance element, or an
enabled continue button (no total re-extraction at all). -/
theorem verification_succeeds_iff (d : Doc) :
    (dominosVerifyGiftCardApplication d = true ↔
      (∃ sel ∈ dominosSuccessSelectors, ∃ el, d.query sel = some el ∧
        strIncludes (strToLower el.textContent) "applied" = true) ∨
      (∃ sel ∈ dominosBalanceSelectors, (d.query sel).isSome = true) ∨
      (∃ a c, dominosExtractTotalPrice d = some (a, c) ∧ 0 < a) ∨
      (∃ sel ∈ dominosDiscountSelectors, (d.query sel).isSome = true)) ∧
    (amazonVerifyGiftCardApplication d = true ↔
      (∃ sel ∈ amazonSuccessSelectors, ∃ el, d.query sel = some el ∧
        strIncludes (strToLower el.textContent) "applied" = true) ∨
      (∃ sel ∈ amazonBalanceSelectors, (d.query sel).isSome = true) ∨
      (∃ a c, amazonExtractTotalPrice d = some (a, c) ∧ 0 < a)) ∧
    (netflixVerifyGiftCardRedemption d = true ↔
      (∃ sel ∈ netflixSuccessSelectors, ∃ el, d.query sel = some el ∧
        strIncludes (strToLower el.textContent) "success" = true) ∨
      (∃ sel ∈ netflixBalanceSelectors, (d.query sel).isSome = true) ∨
      (∃ el, findElement d netflixContinueButtonSelectors = some el ∧ el.disabled = false)) := by
  refine ⟨?_, ?_, ?_⟩
  · unfold dominosVerifyGiftCardApplication
    simp [List.any_eq_true, query_text_match_iff, total_pos_match_iff, or_assoc]
  · unfold amazonVerifyGiftCardApplication
    simp [List.any_eq_true, query_text_match_iff, total_pos_match_iff, or_assoc]
  · unfold netflixVerifyGiftCardRedemption
    simp [List.any_eq_true, query_text_match_iff, continue_enabled_match_iff, or_assoc]

/-- **C1** counterexample.  On a Domino's page whose only recognisable content
is an order total of $25.99 — unchanged from before the attempt — the code
reports `Succeeded`, although none of the heuristics the claim lists matches:
no success text, no balance/discount line, no "applied" indicator, and no
decrease of the re-extracted total. -/
theorem verification_claim_counterexample :
    dominosVerifyGiftCardApplication dominosTotalOnlyDoc = true ∧
    specVerifyDominos 2599 dominosTotalOnlyDoc = false := by
  refine ⟨?_, ?_⟩ <;> decide

/-- **C6** counterexample.  The domain check is a substring test
(`hostname.includes(domain)`), not allow-list membership: the hostname
`dominos.com.evil.example` is not in the Domino's allow-list, yet on a
checkout-like path `isDetected()` returns true. -/
theorem substring_domain_detection_counterexample :
    dominosIsDetected "dominos.com.evil.example" "/checkout" emptyDoc = true ∧
    "dominos.com.evil.example" ∉ dominosSupportedDomains := by
  refine ⟨?_, ?_⟩ <;> decide

/-- **C6** (amended).  For each platform, `isDetected()` is true iff the page
hostname *contains* some allow-listed domain as a substring AND the page
satisfies the platform's path heuristic or one of the selector chains the
platform actually probes — Domino's: total-price, cart-item or payment-section
chains; Amazon: only the buy-now-button chain; Netflix: plan-selection,
payment-step or gift-card-section chains.  In particular it is false whenever
no allow-listed domain occurs inside the hostname, and markers from the
unprobed chains (e.g. the gift-card input) do not trigger detection. -/
theorem is_detected_iff (h p : String) (d : Doc) :
    (dominosIsDetected h p d = true ↔
      (∃ dom ∈ dominosSupportedDomains, strIncludes h dom = true) ∧
      ((∃ pth ∈ dominosRelevantPaths, strIncludes p pth = true) ∨
        (∃ sel ∈ dominosTotalPriceSelectors, (d.query sel).isSome = true) ∨
        (∃ sel ∈ dominosCartItemSelectors, (d.query sel).isSome = true) ∨
        (∃ sel ∈ dominosPaymentSectionSelectors, (d.query sel).isSome = true))) ∧
    (amazonIsDetected h p d = true ↔
      (∃ dom ∈ amazonSupportedDomains, strIncludes h dom = true) ∧
      ((∃ pth ∈ amazonCheckoutPaths, strIncludes p pth = true) ∨
        (∃ sel ∈ amazonBuyNowSelectors, (d.query sel).isSome = true))) ∧
    (netflixIsDetected h p d = true ↔
      (∃ dom ∈ netflixSupportedDomains, strIncludes h dom = true) ∧
      ((∃ pth ∈ netflixRelevantPaths, strIncludes p pth = true) ∨
        (∃ sel ∈ netflixPlanSelectionSelectors, (d.query sel).isSome = true) ∨
        (∃ sel ∈ netflixPaymentStepSelectors, (d.query sel).isSome = true) ∨
        (∃ sel ∈ netflixGiftCardSectionSelectors, (d.query sel).isSome = true))) := by
  refine ⟨?_, ?_, ?_⟩
  · rw [dominosIsDetected_eq]
    simp [List.any_eq_true, findElement_isSome_iff, or_assoc]
  · rw [amazonIsDetected_eq]
    simp [List.any_eq_true, findElement_isSome_iff]
  · rw [netflixIsDetected_eq]
    simp [List.any_eq_true, findElement_isSome_iff, or_assoc]

/-- `retryPlatformDetection` only re-runs detection and injection: it never
touches the debounce timer, the re-scan counter, or the in-flight counter. -/
theorem retry_preserves_scheduler_fields (e : PageEnv) (s : CSState) :
    (retryPlatformDetection e s).retryInvocations = s.retryInvocations ∧
    (retryPlatformDetection e s).detectionTimer = s.detectionTimer ∧
    (retryPlatformDetection e s).inFlightApplications = s.inFlightApplications := by
  unfold retryPlatformDetection detectAndSetupPlatform injectPayButton
  repeat' split
  all_goals exact ⟨rfl, rfl, rfl⟩

/-- During a burst, every arriving signal merely reschedules the single
pending debounce timer: no deadline is reached before the next signal, so no
re-scan fires and nothing else changes. -/
theorem run_burst_pending (e : PageEnv) :
    ∀ (evs : List (ℕ × List Mutation)) (t : ℕ) (s : CSState),
      burstFrom t evs = true →
      ∃ t2, runMutationTrace e { s with detectionTimer := some (t + 1000) } evs =
        { s with detectionTimer := some (t2 + 1000) } := by
  intro evs
  induction evs with
  | nil =>
    intro t s _
    exact ⟨t, rfl⟩
  | cons ev rest ih =>
    intro t s hb
    simp only [burstFrom, Bool.and_eq_true, decide_eq_true_eq] at hb
    obtain ⟨⟨⟨h1, h2⟩, h3⟩, h4⟩ := hb
    have hstep :
        observerStep e { s with detectionTimer := some (t + 1000) } ev =
          { s with detectionTimer := some (ev.1 + 1000) } := by
      unfold observerStep fireDetectionTimerIfDue mutationCallback
      have hnot : ¬ (t + 1000 ≤ ev.1) := by omega
      simp [hnot, h3]
    have := ih ev.1 s h4
    simpa [runMutationTrace, hstep] using this

/-- **C8**.  A burst of element-adding structural-change signals in which each
signal arrives within the 1000 ms debounce window of its predecessor triggers
exactly one re-scan: during the burst nothing fires (each signal cancels and
replaces the single pending timer), and when the clock finally passes the last
deadline `retryPlatformDetection` is invoked exactly once. -/
theorem debounce_burst_single_rescan (e : PageEnv) (t0 : ℕ) (m0 : List Mutation)
    (evs : List (ℕ × List Mutation)) (s : CSState)
    (hTimer : s.detectionTimer = none)
    (hm : shouldCheck m0 = true)
    (hb : burstFrom t0 evs = true) :
    (flushTimer e (runMutationTrace e s ((t0, m0) :: evs))).retryInvocations =
      s.retryInvocations + 1 := by
  have hstep : observerStep e s (t0, m0) = { s with detectionTimer := some (t0 + 1000) } := by
    unfold observerStep fireDetectionTimerIfDue mutationCallback
    simp [hTimer, hm]
  obtain ⟨t2, hrun⟩ := run_burst_pending e evs t0 s hb
  have hall : runMutationTrace e s ((t0, m0) :: evs) = { s with detectionTimer := some (t2 + 1000) } := by
    simpa [runMutationTrace, hstep] using hrun
  rw [hall]
  unfold flushTimer
  simp only []
  exact (retry_preserves_scheduler_fields e _).1

/-- Witness for C8: a concrete three-signal burst (at 0, 300 and 600 ms) from
a fresh session produces exactly one re-scan. -/
theorem debounce_burst_single_rescan_witness :
    shouldCheck elementBatch = true ∧ burstFrom 0 demoBurstTail = true ∧
    (flushTimer blankEnv
        (runMutationTrace blankEnv initialState ((0, elementBatch) :: demoBurstTail))).retryInvocations =
      initialState.retryInvocations + 1 :=
  ⟨by decide, by decide,
    debounce_burst_single_rescan blankEnv 0 elementBatch demoBurstTail initialState rfl
      (by decide) (by decide)⟩

/-- A single injection call mounts at most one new affordance. -/
theorem inject_mounted_le (e : PageEnv) (s : CSState) :
    (injectPayButton e s).mountedButtons ≤ s.mountedButtons + 1 := by
  unfold injectPayButton
  repeat' split
  all_goals simp

/-- **C9**.  Button injection is idempotent: a second invocation against the
same page state is a no-op (the existing affordance recorded in `payButton` is
checked before constructing a new one), so two invocations from a fresh state
mount at most one affordance; and a re-scan is a no-op when a platform is
already detected and the affordance already mounted. -/
theorem inject_pay_button_idempotent (e : PageEnv) (s : CSState) :
    injectPayButton e (injectPayButton e s) = injectPayButton e s ∧
    (s.mountedButtons = 0 → (injectPayButton e (injectPayButton e s)).mountedButtons ≤ 1) ∧
    (s.currentPlatform.isSome = true → s.payButton = true →
      retryPlatformDetection e s = s) := by
  have hidem : injectPayButton e (injectPayButton e s) = injectPayButton e s := by
    unfold injectPayButton
    cases hc : s.currentPlatform with
    | none => simp [hc]
    | some pl =>
      by_cases hbtn : s.payButton
      · simp [hc, hbtn]
      · cases hip : getButtonInjectionPointP pl e.doc with
        | none => simp [hc, hbtn, hip]
        | some el => simp [hc, hbtn, hip]
  refine ⟨hidem, ?_, ?_⟩
  · intro h0
    rw [hidem]
    have := inject_mounted_le e s
    omega
  · intro h1 h2
    unfold retryPlatformDetection
    simp [h1, h2]

/-- Witness for C9: with Domino's detected and the affordance mounted a
re-scan is a no-op, and a double injection from the fresh detected state
mounts at most one affordance. -/
theorem inject_pay_button_idempotent_witness :
    retryPlatformDetection blankEnv mountedState = mountedState ∧
    (injectPayButton blankEnv (injectPayButton blankEnv readyState)).mountedButtons ≤ 1 :=
  ⟨(inject_pay_button_idempotent blankEnv mountedState).2.2 rfl rfl,
    (inject_pay_button_idempotent blankEnv readyState).2.1 rfl⟩

end Paymint
